import Mathlib

/-!
Verification development for the cos-configuration-k8s operator.

The definitions below are a shallow embedding of `src/charm.py`,
`src/secret_store.py` and `src/secrets_helper.py`:

* `getCurrentHash` embeds `COSConfigCharm._get_current_hash` (the regex
  `.+/(.+)$` applied with Python `re.match` semantics after `str.strip`);
* `storedGet` / `storedSet` embed `_stored_get` / `_stored_set` over the peer
  relation application data, modelled as an association list;
* `updateHashAndRelData` embeds `_update_hash_and_rel_data`, reporting the
  number of republish calls made to the prometheus, loki and grafana
  collaborators in a `Calls` record;
* `commonExitHook` embeds `_common_exit_hook`; the outcome of running the
  git-sync command (`_exec_sync_repo`) is part of the per-pass environment
  `Env`, since the sidecar process is external to the charm;
* `onSyncNowAction` embeds `_on_sync_now_action`;
* `gitSyncCommandLine` embeds `_git_sync_command_line`;
* `secretStoreGetValue` and `secretsHelperGetValue` embed the two
  `SecretGetter.get_value` variants.
-/

/-- Unit status values the charm code assigns (`MaintenanceStatus`,
`BlockedStatus`, `ActiveStatus`). -/
inductive Status where
  | maintenance : String → Status
  | blocked : String → Status
  | active : Status
  deriving DecidableEq

/-- Configuration options read by the charm (unset string options are the
empty string, matching Python falsiness of `config.get`). -/
structure Config where
  git_repo : String
  git_branch : String
  git_rev : String
  git_depth : Int
  git_ssh_key : String
  git_ssh_key_secret : String
  deriving DecidableEq

/-- Outcome of `_exec_sync_repo`: either (stdout, stderr), or the raw message
and optional details carried by the raised `SyncError`. -/
inductive SyncOutcome where
  | ok : String → String → SyncOutcome
  | err : String → Option String → SyncOutcome
  deriving DecidableEq

/-- Per-pass environment: facts about the world that are fixed for the
duration of one reconciliation pass. -/
structure Env where
  canConnect : Bool
  peerRelationExists : Bool
  isLeader : Bool
  config : Config
  syncOutcome : SyncOutcome
  deriving DecidableEq

/-- Peer relation application data, a string-keyed dictionary. -/
abbrev AppData := List (String × String)

/-- Dictionary lookup (first matching key). -/
def storedLookup : AppData → String → Option String
  | [], _ => none
  | kv :: rest, k => if kv.1 = k then some kv.2 else storedLookup rest k

/-- Dictionary assignment: update in place, or append when the key is new. -/
def appDataSet : AppData → String → String → AppData
  | [], k, v => [(k, v)]
  | kv :: rest, k, v => if kv.1 = k then (k, v) :: rest else kv :: appDataSet rest k v

/-- Embeds `_stored_get`: returns `None` when the peer relation is absent. -/
def storedGet (env : Env) (d : AppData) (k : String) : Option String :=
  if env.peerRelationExists = true then storedLookup d k else none

/-- Embeds `_stored_set`: aborts when not leader; iterating over the peer
relations writes nothing when the relation does not exist. -/
def storedSet (env : Env) (d : AppData) (k v : String) : AppData :=
  if env.isLeader = false then d
  else if env.peerRelationExists = true then appDataSet d k v else d

/-- Python falsiness of an `Optional[str]`: `None` and the empty string. -/
def optStrFalsy : Option String → Bool
  | none => true
  | some s => s == ""

/-- The `_hash_placeholder` class constant. -/
def hashPlaceholder : String := "failed to fetch hash"

/-- Key under which the fingerprint is stored in peer app data. -/
def hashKey : String := "hash"

/-- Key of the one-time dashboard reinitialization flag. -/
def reinitKey : String := "reinit_without_topology_dropdowns"

/-- Python `str.strip()` restricted to its whitespace-trimming role. -/
def pyStrip (s : List Char) : List Char :=
  ((s.dropWhile Char.isWhitespace).reverse.dropWhile Char.isWhitespace).reverse

/-- Split a character list at its last `/`: `lastSlashSplit s = some (p, q)`
exactly when `s = p ++ '/' :: q` and `q` contains no further `/`. -/
def lastSlashSplit : List Char → Option (List Char × List Char)
  | [] => none
  | c :: rest =>
    match lastSlashSplit rest with
    | some (p, q) => some (c :: p, q)
    | none => if c = '/' then some ([], rest) else none

/-- Semantics of Python `re.match(".+/(.+)$", s)` returning `group(1)`:
the match succeeds exactly when `s` is newline-free and has a `/` at some
position `j` with at least one character before it and at least one after it;
greedy backtracking selects the largest such `j`. -/
def reMatchGroup (s : List Char) : Option (List Char) :=
  if '\n' ∈ s then none
  else
    match lastSlashSplit s with
    | none => none
    | some (p, q) =>
      if p = [] then none
      else if q ≠ [] then some q
      else
        match lastSlashSplit p with
        | none => none
        | some (p2, q2) => if p2 = [] then none else some (q2 ++ ['/'])

/-- Embeds `_get_current_hash`: the container must be reachable and the marker
file readable; the stripped contents must match `.+/(.+)$`; otherwise the
placeholder is returned. `markerFile = none` models a missing or unreadable
file (`OSError`, `IOError`, `FileNotFoundError`). -/
def getCurrentHash (canConnect : Bool) (markerFile : Option (List Char)) : String :=
  if canConnect = false then hashPlaceholder
  else
    match markerFile with
    | none => hashPlaceholder
    | some raw =>
      match reMatchGroup (pyStrip raw) with
      | some g => String.mk g
      | none => hashPlaceholder

/-- Mutable world state a reconciliation pass can observe and modify:
the marker file of the mirrored working directory, the peer relation
application data, and the unit status. -/
structure CharmState where
  markerFile : Option (List Char)
  appData : AppData
  unitStatus : Status
  deriving DecidableEq

/-- Count of republish calls made during one pass, per collaborator. -/
structure Calls where
  prom : Nat
  loki : Nat
  graf : Nat
  deriving DecidableEq

/-- No republish calls. -/
def noCalls : Calls := ⟨0, 0, 0⟩

/-- Embeds `_remove_repo_folder`: wiping the working directory removes the
marker file with it. -/
def removeRepoFolder (s : CharmState) : CharmState := { s with markerFile := none }

/-- Embeds the `_configured` property: `bool(self.config.get("git_repo"))`. -/
abbrev configured (cfg : Config) : Prop := cfg.git_repo ≠ ""

/-- Embeds `_update_hash_and_rel_data`. -/
def updateHashAndRelData (env : Env) (s : CharmState) : CharmState × Calls :=
  let currentHash := getCurrentHash env.canConnect s.markerFile
  let storedHash := storedGet env s.appData hashKey
  if storedHash ≠ some currentHash ∧ env.isLeader = true then
    let d1 := storedSet env s.appData reinitKey ("Done")
    let d2 := storedSet env d1 hashKey currentHash
    ({ s with appData := d2 }, ⟨1, 1, 1⟩)
  else if optStrFalsy (storedGet env s.appData reinitKey) = true then
    ({ s with appData := storedSet env s.appData reinitKey ("Done") }, ⟨0, 0, 1⟩)
  else (s, noCalls)

/-- Message carried by a `SyncError` built from a raw message. -/
def syncErrorMessage (raw : String) : String := "Sync error: " ++ raw

/-- Embeds `_common_exit_hook`. -/
def commonExitHook (env : Env) (s : CharmState) : CharmState × Calls :=
  if env.canConnect = false then
    ({ s with unitStatus := Status.maintenance ("Waiting for pod startup to complete") }, noCalls)
  else if env.peerRelationExists = false then
    ({ s with unitStatus := Status.maintenance ("Waiting for peer relation to be created") }, noCalls)
  else if ¬ configured env.config then
    let s1 := { s with unitStatus := Status.blocked ("Config options missing - use `juju config`") }
    updateHashAndRelData env (removeRepoFolder s1)
  else
    match env.syncOutcome with
    | SyncOutcome.err msg _ =>
      ({ s with unitStatus := Status.blocked ("Sync failed: " ++ syncErrorMessage msg) }, noCalls)
    | SyncOutcome.ok _ _ =>
      let r := updateHashAndRelData env s
      let stored := storedGet env r.1.appData hashKey
      let st :=
        if stored = some hashPlaceholder ∨ stored = none then
          Status.blocked ("No hash file yet - confirm config is valid")
        else Status.active
      ({ r.1 with unitStatus := st }, r.2)

/-- A sequence of reconciliation passes, folded over their environments. -/
def passSeq (envs : List Env) (s : CharmState) : CharmState :=
  envs.foldl (fun t e => (commonExitHook e t).1) s

/-- Observable outcome of the sync-now action: the failure message passed to
`event.fail` (if any), the lines passed to `event.log`, and the
`git-sync-stdout` result (if set). -/
structure ActionResult where
  failMsg : Option String
  logs : List String
  results : Option String
  deriving DecidableEq

/-- Python `str.strip()` on a string. -/
def stripStr (s : String) : String := String.mk (pyStrip s.data)

/-- Python `str.splitlines()` restricted to `\n` separators. -/
def pySplitlines (s : String) : List String :=
  if s = "" then []
  else
    let ps := s.splitOn ("\n")
    if ps.getLast? = some "" then ps.dropLast else ps

/-- Embeds `_on_sync_now_action`. -/
def onSyncNowAction (env : Env) (s : CharmState) : CharmState × Calls × ActionResult :=
  if env.canConnect = false then
    (s, noCalls, ⟨some ("Container not ready"), [], none⟩)
  else if ¬ configured env.config then
    (s, noCalls, ⟨some ("Config options missing - use `juju config`"), [], none⟩)
  else
    let logs0 := ["Calling git-sync with --one-time..."]
    match env.syncOutcome with
    | SyncOutcome.err msg details =>
      let detailLogs :=
        match details with
        | some d => (pySplitlines d).map stripStr
        | none => []
      (s, noCalls, ⟨some (syncErrorMessage msg), logs0 ++ detailLogs, none⟩)
    | SyncOutcome.ok stdout stderr =>
      let warnLogs := (pySplitlines stderr).map (fun l => "Warning: " ++ stripStr l)
      let r := commonExitHook env s
      (r.1, r.2, ⟨none, logs0 ++ warnLogs, some stdout⟩)

/-- Embeds `_git_sync_command_line`; the sidecar mount point is a parameter
(`_git_sync_mount_point_sidecar` comes from charm metadata). -/
def gitSyncCommandLine (cfg : Config) (mountPointSidecar : String) : List String :=
  ["/git-sync"] ++ ["--repo", cfg.git_repo]
  ++ (if cfg.git_branch ≠ "" then ["--branch", cfg.git_branch] else [])
  ++ (if cfg.git_rev ≠ "" then ["--rev", cfg.git_rev] else [])
  ++ (if cfg.git_depth ≠ 0 ∧ 0 < cfg.git_depth then ["--depth", toString cfg.git_depth] else [])
  ++ ["--root", mountPointSidecar, "--dest", "repo"]
  ++ (if cfg.git_ssh_key ≠ "" then ["--ssh", "--ssh-key-file", "/run/cos-config-ssh-key.priv"] else [])
  ++ ["--one-time"]

/-- Characters permitted in a URL scheme by `urllib.parse`. -/
def schemeChar (c : Char) : Bool :=
  c.isAlpha || c.isDigit || c == '+' || c == '-' || c == '.'

/-- Split a character list at the first occurrence of `c`. -/
def splitAtFirst (c : Char) : List Char → Option (List Char × List Char)
  | [] => none
  | a :: t =>
    if a = c then some ([], t)
    else
      match splitAtFirst c t with
      | some (p, q) => some (a :: p, q)
      | none => none

/-- The three components of `urllib.parse.urlparse` used by `get_value`. -/
structure UrlParts where
  scheme : String
  netloc : String
  path : String
  deriving DecidableEq

/-- Model of `urllib.parse.urlparse` restricted to scheme, netloc and path:
a valid scheme is an alphabetic character followed by scheme characters,
before the first `:`; a netloc follows `//` up to the next `/`, `?` or `#`;
the path is what remains before any fragment or query. -/
def urlsplitModel (url : String) : UrlParts :=
  let u := url.data
  let schemeRest :=
    match splitAtFirst (':') u with
    | some (before, after) =>
      match before with
      | [] => (([] : List Char), u)
      | b :: bs =>
        if b.isAlpha ∧ (b :: bs).all schemeChar then ((b :: bs).map Char.toLower, after)
        else (([] : List Char), u)
    | none => (([] : List Char), u)
  let rest := schemeRest.2
  let netlocRest :=
    match rest with
    | '/' :: '/' :: r =>
      (r.takeWhile (fun c => !(c == '/' || c == '?' || c == '#')),
       r.dropWhile (fun c => !(c == '/' || c == '?' || c == '#')))
    | _ => (([] : List Char), rest)
  let path := (netlocRest.2.takeWhile (fun c => !(c == '#'))).takeWhile (fun c => !(c == '?'))
  ⟨String.mk schemeRest.1, String.mk netlocRest.1, String.mk path⟩

/-- Python `str.split(c)` (no maxsplit): the empty string yields `[""]`. -/
def pySplitChar (c : Char) : List Char → List (List Char)
  | [] => [[]]
  | a :: t =>
    if a = c then [] :: pySplitChar c t
    else
      match pySplitChar c t with
      | [] => [[a]]
      | h :: rest => (a :: h) :: rest

/-- Outcome of looking a secret up in the model: the id is unknown
(`SecretNotFoundError`), the charm lacks permission (`ModelError`), some other
error, or the secret with its content map. -/
inductive SecretLookup where
  | notFound
  | permissionError
  | otherError
  | found : List (String × String) → SecretLookup

/-- The `secret_not_found_msg` literal shared by both getter variants. -/
def secretNotFoundMsg : String := "git SSH key secret not found."

/-- Embeds `SecretGetter.get_value` from `src/secret_store.py`; the returned
pair is the value (or `None`) and the final `_status` field. -/
def secretStoreGetValue (lookup : String → SecretLookup) (secretUrl : String) :
    Option String × Option Status :=
  if secretUrl = "" then (none, none)
  else
    let parsed := urlsplitModel secretUrl
    if ¬ (parsed.scheme = "secret" ∧ parsed.netloc ≠ "" ∧ parsed.path ≠ "") then
      (none, some (Status.blocked secretNotFoundMsg))
    else
      let paths := pySplitChar ('/') (parsed.path.data.dropWhile (fun c => c == '/'))
      if paths.length ≠ 1 then (none, some (Status.blocked secretNotFoundMsg))
      else
        let secretKey := String.mk (paths.headD [])
        match lookup parsed.netloc with
        | SecretLookup.notFound => (none, some (Status.blocked secretNotFoundMsg))
        | SecretLookup.permissionError =>
          (none, some (Status.blocked
            ("missing charm permissions for the git SSH key secret. \x27juju grant-secret\x27 may resolve.")))
        | SecretLookup.otherError =>
          (none, some (Status.blocked ("Unexpected error fetching secret, see debug-log.")))
        | SecretLookup.found content =>
          match storedLookup content secretKey with
          | none => (none, some (Status.blocked secretNotFoundMsg))
          | some v =>
            if v = "" then (none, some (Status.blocked secretNotFoundMsg))
            else (some v, none)

/-- Embeds `SecretGetter.get_value` from `src/secrets_helper.py`: identical
shape, but success sets `ActiveStatus` and the permission message differs. -/
def secretsHelperGetValue (lookup : String → SecretLookup) (secretUrl : String) :
    Option String × Option Status :=
  if secretUrl = "" then (none, none)
  else
    let parsed := urlsplitModel secretUrl
    if ¬ (parsed.scheme = "secret" ∧ parsed.netloc ≠ "" ∧ parsed.path ≠ "") then
      (none, some (Status.blocked secretNotFoundMsg))
    else
      let paths := pySplitChar ('/') (parsed.path.data.dropWhile (fun c => c == '/'))
      if paths.length ≠ 1 then (none, some (Status.blocked secretNotFoundMsg))
      else
        let secretKey := String.mk (paths.headD [])
        match lookup parsed.netloc with
        | SecretLookup.notFound => (none, some (Status.blocked secretNotFoundMsg))
        | SecretLookup.permissionError =>
          (none, some (Status.blocked ("missing charm permissions for the secret, see debug-log.")))
        | SecretLookup.otherError =>
          (none, some (Status.blocked ("Unexpected error fetching secret, see debug-log.")))
        | SecretLookup.found content =>
          match storedLookup content secretKey with
          | none => (none, some (Status.blocked secretNotFoundMsg))
          | some v =>
            if v = "" then (none, some (Status.blocked secretNotFoundMsg))
            else (some v, some Status.active)

/-- Modelled from the spec: the wiring that feeds a secret-derived SSH key
into the command line is absent from the charm module under src (only the
scenario tests exercise it); per the spec, a key derived from the
`git_ssh_key_secret` reference takes precedence over the cleartext
`git_ssh_key` option when both are set. -/
def resolvedSshKey (lookup : String → SecretLookup) (cfg : Config) : String :=
  match (secretStoreGetValue lookup cfg.git_ssh_key_secret).1 with
  | some v => v
  | none => cfg.git_ssh_key

/-! Helper lemmas about the peer-data dictionary. -/

/-- Looking up the key just assigned returns the assigned value. -/
theorem storedLookup_set_same (d : AppData) (k v : String) :
    storedLookup (appDataSet d k v) k = some v := by
  induction d with
  | nil => simp [appDataSet, storedLookup]
  | cons kv rest ih =>
    by_cases h : kv.1 = k
    · simp [appDataSet, h, storedLookup]
    · simp [appDataSet, h, storedLookup, ih]

/-- Assigning one key leaves the others unchanged. -/
theorem storedLookup_set_other (d : AppData) (k k2 v : String) (h : k ≠ k2) :
    storedLookup (appDataSet d k v) k2 = storedLookup d k2 := by
  induction d with
  | nil => simp [appDataSet, storedLookup, h]
  | cons kv rest ih =>
    by_cases h1 : kv.1 = k
    · simp [appDataSet, h1, storedLookup, h]
    · simp [appDataSet, h1, storedLookup, ih]

/-! Helper lemmas about `updateHashAndRelData`. -/

/-- The hash-and-relation-data update touches only the app data. -/
theorem updateHash_fixed (env : Env) (s : CharmState) :
    (updateHashAndRelData env s).1.markerFile = s.markerFile ∧
    (updateHashAndRelData env s).1.unitStatus = s.unitStatus := by
  unfold updateHashAndRelData
  dsimp only
  split
  · exact ⟨rfl, rfl⟩
  · split
    · exact ⟨rfl, rfl⟩
    · exact ⟨rfl, rfl⟩

/-- On a non-leader the update writes nothing and republishes at most the
grafana dashboards. -/
theorem updateHash_nonleader (env : Env) (s : CharmState) (h : env.isLeader = false) :
    (updateHashAndRelData env s).1.appData = s.appData ∧
    (updateHashAndRelData env s).2.prom = 0 ∧ (updateHashAndRelData env s).2.loki = 0 := by
  unfold updateHashAndRelData
  dsimp only
  rw [if_neg (by simp [h])]
  split
  · simp [storedSet, h]
  · exact ⟨rfl, rfl, rfl⟩

/-- When the stored fingerprint already equals the current one and the
reinitialization flag is set, the update is the identity. -/
theorem updateHash_stable (env : Env) (s : CharmState)
    (hh : storedGet env s.appData hashKey = some (getCurrentHash env.canConnect s.markerFile))
    (hf : optStrFalsy (storedGet env s.appData reinitKey) = false) :
    updateHashAndRelData env s = (s, noCalls) := by
  unfold updateHashAndRelData
  dsimp only
  rw [if_neg (by simp [hh]), if_neg (by simp [hf])]

/-- On a non-leader with the reinitialization flag set the update is the
identity. -/
theorem updateHash_nonleader_flag (env : Env) (s : CharmState)
    (hl : env.isLeader = false)
    (hf : optStrFalsy (storedGet env s.appData reinitKey) = false) :
    updateHashAndRelData env s = (s, noCalls) := by
  unfold updateHashAndRelData
  dsimp only
  rw [if_neg (by simp [hl]), if_neg (by simp [hf])]

/-- After a leader runs the update (with the peer relation present), the
stored fingerprint matches the observed one and the flag is set. -/
theorem updateHash_leader_post (env : Env) (s : CharmState)
    (hl : env.isLeader = true) (hp : env.peerRelationExists = true) :
    storedGet env (updateHashAndRelData env s).1.appData hashKey
      = some (getCurrentHash env.canConnect s.markerFile) ∧
    optStrFalsy (storedGet env (updateHashAndRelData env s).1.appData reinitKey) = false := by
  unfold updateHashAndRelData
  dsimp only
  split
  next hcond =>
    constructor
    · simp [storedGet, storedSet, hl, hp, storedLookup_set_same]
    · simp [storedGet, storedSet, hl, hp]
      rw [storedLookup_set_other _ hashKey reinitKey _ (by decide),
        storedLookup_set_same]
      decide
  next hcond =>
    have hx : storedGet env s.appData hashKey
        = some (getCurrentHash env.canConnect s.markerFile) := by
      by_contra hne
      exact hcond ⟨hne, hl⟩
    split
    next hflag =>
      constructor
      · simp [storedGet, storedSet, hl, hp] at hx ⊢
        rw [storedLookup_set_other _ reinitKey hashKey _ (by decide)]
        exact hx
      · simp [storedGet, storedSet, hl, hp]
        rw [storedLookup_set_same]
        decide
    next hflag =>
      exact ⟨hx, by simpa using hflag⟩

/-! Branch equations for `commonExitHook`, and structure eta helpers. -/

/-- Equation for the container-unreachable branch. -/
theorem commonExitHook_noconnect_eq (env : Env) (s : CharmState)
    (hcc : env.canConnect = false) :
    commonExitHook env s =
      (⟨s.markerFile, s.appData,
        Status.maintenance ("Waiting for pod startup to complete")⟩, noCalls) := by
  unfold commonExitHook
  rw [if_pos hcc]

/-- Equation for the missing-peer-relation branch. -/
theorem commonExitHook_nopeer_eq (env : Env) (s : CharmState)
    (hcc : ¬ env.canConnect = false) (hpp : env.peerRelationExists = false) :
    commonExitHook env s =
      (⟨s.markerFile, s.appData,
        Status.maintenance ("Waiting for peer relation to be created")⟩, noCalls) := by
  unfold commonExitHook
  rw [if_neg hcc, if_pos hpp]

/-- Equation for the config-missing branch. -/
theorem commonExitHook_noconfig_eq (env : Env) (s : CharmState)
    (hcc : ¬ env.canConnect = false) (hpp : ¬ env.peerRelationExists = false)
    (hcfg : ¬ configured env.config) :
    commonExitHook env s =
      updateHashAndRelData env
        ⟨none, s.appData, Status.blocked ("Config options missing - use `juju config`")⟩ := by
  unfold commonExitHook
  rw [if_neg hcc, if_neg hpp, if_pos hcfg]
  rfl

/-- Equation for the sync-failure branch. -/
theorem commonExitHook_err_eq (env : Env) (s : CharmState) (m : String) (d : Option String)
    (hcc : ¬ env.canConnect = false) (hpp : ¬ env.peerRelationExists = false)
    (hcfg : configured env.config) (hso : env.syncOutcome = SyncOutcome.err m d) :
    commonExitHook env s =
      (⟨s.markerFile, s.appData,
        Status.blocked ("Sync failed: " ++ syncErrorMessage m)⟩, noCalls) := by
  unfold commonExitHook
  rw [if_neg hcc, if_neg hpp, if_neg (not_not_intro hcfg), hso]

/-- Equation for the successful-sync branch. -/
theorem commonExitHook_ok_eq (env : Env) (s : CharmState) (o e : String)
    (hcc : ¬ env.canConnect = false) (hpp : ¬ env.peerRelationExists = false)
    (hcfg : configured env.config) (hso : env.syncOutcome = SyncOutcome.ok o e) :
    commonExitHook env s =
      (⟨(updateHashAndRelData env s).1.markerFile, (updateHashAndRelData env s).1.appData,
        if storedGet env (updateHashAndRelData env s).1.appData hashKey = some hashPlaceholder ∨
            storedGet env (updateHashAndRelData env s).1.appData hashKey = none then
          Status.blocked ("No hash file yet - confirm config is valid")
        else Status.active⟩,
       (updateHashAndRelData env s).2) := by
  unfold commonExitHook
  rw [if_neg hcc, if_neg hpp, if_neg (not_not_intro hcfg), hso]

/-- Each pass republishes each collaborator at most once. -/
theorem commonExitHook_calls_le (env : Env) (s : CharmState) :
    (commonExitHook env s).2.prom ≤ 1 ∧ (commonExitHook env s).2.loki ≤ 1 ∧
    (commonExitHook env s).2.graf ≤ 1 := by
  unfold commonExitHook updateHashAndRelData
  dsimp only
  repeat' split
  all_goals simp [noCalls]

/-- A pass by a non-leader never changes the peer app data. -/
theorem commonExitHook_nonleader_appData (env : Env) (s : CharmState)
    (h : env.isLeader = false) :
    (commonExitHook env s).1.appData = s.appData := by
  unfold commonExitHook
  dsimp only
  split
  · rfl
  split
  · rfl
  split
  · exact (updateHash_nonleader env _ h).1
  split
  · rfl
  · exact (updateHash_nonleader env _ h).1

/-- Running the exit hook twice in the same environment makes the second pass
a republish no-op and a state no-op, provided the unit is the leader or the
dashboard reinitialization flag is already set. -/
theorem secondPassQuiet (env : Env) (s : CharmState)
    (h : env.isLeader = true ∨ optStrFalsy (storedGet env s.appData reinitKey) = false) :
    commonExitHook env (commonExitHook env s).1 = ((commonExitHook env s).1, noCalls) := by
  by_cases hcc : env.canConnect = false
  · rw [commonExitHook_noconnect_eq env s hcc, commonExitHook_noconnect_eq env _ hcc]
  by_cases hpp : env.peerRelationExists = false
  · rw [commonExitHook_nopeer_eq env s hcc hpp, commonExitHook_nopeer_eq env _ hcc hpp]
  have hp : env.peerRelationExists = true := by
    revert hpp
    cases env.peerRelationExists <;> simp
  by_cases hcfg : configured env.config
  · cases hso : env.syncOutcome with
    | err m d =>
      rw [commonExitHook_err_eq env s m d hcc hpp hcfg hso,
        commonExitHook_err_eq env _ m d hcc hpp hcfg hso]
    | ok o e =>
      rw [commonExitHook_ok_eq env s o e hcc hpp hcfg hso]
      dsimp only
      rw [commonExitHook_ok_eq env _ o e hcc hpp hcfg hso]
      have hfix := updateHash_fixed env s
      have hstable :
          updateHashAndRelData env
            (⟨(updateHashAndRelData env s).1.markerFile, (updateHashAndRelData env s).1.appData,
              if storedGet env (updateHashAndRelData env s).1.appData hashKey
                    = some hashPlaceholder ∨
                  storedGet env (updateHashAndRelData env s).1.appData hashKey = none then
                Status.blocked ("No hash file yet - confirm config is valid")
              else Status.active⟩ : CharmState)
            = (⟨(updateHashAndRelData env s).1.markerFile, (updateHashAndRelData env s).1.appData,
                if storedGet env (updateHashAndRelData env s).1.appData hashKey
                      = some hashPlaceholder ∨
                    storedGet env (updateHashAndRelData env s).1.appData hashKey = none then
                  Status.blocked ("No hash file yet - confirm config is valid")
                else Status.active⟩, noCalls) := by
        by_cases hl : env.isLeader = true
        · have post := updateHash_leader_post env s hl hp
          refine updateHash_stable env _ ?_ ?_
          · dsimp only
            rw [hfix.1]
            exact post.1
          · dsimp only
            exact post.2
        · have hlf : env.isLeader = false := by
            revert hl
            cases env.isLeader <;> simp
          have hf := h.resolve_left hl
          have hsame := updateHash_nonleader_flag env s hlf hf
          refine updateHash_nonleader_flag env _ hlf ?_
          dsimp only
          rw [hsame]
          exact hf
      rw [hstable]
  · rw [commonExitHook_noconfig_eq env s hcc hpp hcfg]
    rw [commonExitHook_noconfig_eq env _ hcc hpp hcfg]
    have hfix := updateHash_fixed env
      (⟨none, s.appData, Status.blocked ("Config options missing - use `juju config`")⟩ : CharmState)
    have hteq :
        (⟨none,
          (updateHashAndRelData env
            (⟨none, s.appData,
              Status.blocked ("Config options missing - use `juju config`")⟩ : CharmState)).1.appData,
          Status.blocked ("Config options missing - use `juju config`")⟩ : CharmState)
        = (updateHashAndRelData env
            (⟨none, s.appData,
              Status.blocked ("Config options missing - use `juju config`")⟩ : CharmState)).1 := by
      conv_rhs =>
        rw [show (updateHashAndRelData env
            (⟨none, s.appData,
              Status.blocked ("Config options missing - use `juju config`")⟩ : CharmState)).1
          = CharmState.mk
              (updateHashAndRelData env
                (⟨none, s.appData,
                  Status.blocked ("Config options missing - use `juju config`")⟩ : CharmState)).1.markerFile
              (updateHashAndRelData env
                (⟨none, s.appData,
                  Status.blocked ("Config options missing - use `juju config`")⟩ : CharmState)).1.appData
              (updateHashAndRelData env
                (⟨none, s.appData,
                  Status.blocked ("Config options missing - use `juju config`")⟩ : CharmState)).1.unitStatus
          from rfl]
      rw [hfix.1, hfix.2]
    rw [hteq]
    by_cases hl : env.isLeader = true
    · have post := updateHash_leader_post env
        (⟨none, s.appData, Status.blocked ("Config options missing - use `juju config`")⟩ : CharmState)
        hl hp
      refine updateHash_stable env _ ?_ ?_
      · rw [hfix.1]
        exact post.1
      · exact post.2
    · have hlf : env.isLeader = false := by
        revert hl
        cases env.isLeader <;> simp
      have hf := h.resolve_left hl
      have hsame := updateHash_nonleader env
        (⟨none, s.appData, Status.blocked ("Config options missing - use `juju config`")⟩ : CharmState)
        hlf
      refine updateHash_nonleader_flag env _ hlf ?_
      rw [hsame.1]
      exact hf

/-! Lemmas about fingerprint extraction. -/

/-- A slash-free list has no last-slash split. -/
theorem lastSlashSplit_none (s : List Char) (h : '/' ∉ s) : lastSlashSplit s = none := by
  induction s with
  | nil => rfl
  | cons c rest ih =>
    have hc : ¬ c = '/' := by
      intro he
      exact h (by simp [he])
    have hr : '/' ∉ rest := fun hm => h (List.mem_cons_of_mem _ hm)
    simp [lastSlashSplit, ih hr, hc]

/-- Splitting `p ++ '/' :: q` at its last slash when `q` is slash-free. -/
theorem lastSlashSplit_append (p q : List Char) (hq : '/' ∉ q) :
    lastSlashSplit (p ++ '/' :: q) = some (p, q) := by
  induction p with
  | nil => simp [lastSlashSplit, lastSlashSplit_none q hq]
  | cons c rest ih => simp [lastSlashSplit, ih]

/-- The regex group is the segment after the last slash, on shaped input. -/
theorem reMatchGroup_extract (p q : List Char) (hp : p ≠ []) (hq : q ≠ [])
    (hq2 : '/' ∉ q) (hnl : '\n' ∉ p ++ '/' :: q) :
    reMatchGroup (p ++ '/' :: q) = some q := by
  unfold reMatchGroup
  rw [if_neg hnl, lastSlashSplit_append p q hq2]
  simp [hp, hq]

/-- The regex never matches slash-free input. -/
theorem reMatchGroup_noslash (s : List Char) (h : '/' ∉ s) :
    reMatchGroup s = none := by
  by_cases hn : '\n' ∈ s <;> simp [reMatchGroup, lastSlashSplit_none s h, hn]

/-! Concrete inputs used by the counterexamples and witnesses. -/

/-- Configuration with only the repo URL set. -/
def cfgRepoOnly : Config := ⟨"http://example/repo.git", "", "", 0, "", ""⟩

/-- A reachable, peer-related, non-leader environment with a successful sync. -/
def envFollower : Env := ⟨true, true, false, cfgRepoOnly, SyncOutcome.ok "" ""⟩

/-- A reachable, peer-related leader environment with a successful sync. -/
def envLeader : Env := ⟨true, true, true, cfgRepoOnly, SyncOutcome.ok "" ""⟩

/-- A leader environment whose sync fails. -/
def envSyncFail : Env := ⟨true, true, true, cfgRepoOnly, SyncOutcome.err "boom" none⟩

/-- A leader environment with the repo URL unset. -/
def envUnsetRepo : Env := ⟨true, true, true, ⟨"", "", "", 0, "", ""⟩, SyncOutcome.ok "" ""⟩

/-- State with a marker for revision abc, matching stored fingerprint, and no
reinitialization flag. -/
def sMarkerAbc : CharmState :=
  ⟨some ("gitdir: a/abc".data), [("hash", "abc")], Status.active⟩

/-- State with empty peer data and a sentinel status. -/
def sEmpty : CharmState :=
  ⟨some ("gitdir: a/abc".data), [], Status.maintenance ("sentinel")⟩

/-- State with a real stored fingerprint and the flag set. -/
def sReal : CharmState :=
  ⟨some ("gitdir: a/abc".data),
    [("hash", "abc"), ("reinit_without_topology_dropdowns", "Done")], Status.active⟩

/-! Claim theorems. -/

/-- Claim C1 counterexample: on a non-leader unit whose stored fingerprint
already equals the current one but whose reinitialization flag is absent, two
consecutive passes of the common exit hook republish the grafana dashboards
once each — two calls in total — even though the second pass sees an
unchanged fingerprint, contradicting the claim that at most one republish per
collaborator happens in total. -/
theorem c1_counterexample :
    storedGet envFollower sMarkerAbc.appData hashKey
      = some (getCurrentHash true sMarkerAbc.markerFile) ∧
    (commonExitHook envFollower sMarkerAbc).2.graf = 1 ∧
    (commonExitHook envFollower (commonExitHook envFollower sMarkerAbc).1).2.graf = 1 := by
  decide

/-- Claim C1 (amended): for every fixed environment (configuration,
leadership, availability, sync outcome) and fixed marker contents, two
consecutive reconciliation passes invoke each collaborator republish at most
once in total, and the second pass makes no republish call and no state
change — provided the unit is the leader or the one-time dashboard
reinitialization flag is already set in peer data. -/
theorem c1_idempotent_convergence (env : Env) (s : CharmState)
    (h : env.isLeader = true ∨ optStrFalsy (storedGet env s.appData reinitKey) = false) :
    (commonExitHook env (commonExitHook env s).1).2 = noCalls ∧
    (commonExitHook env (commonExitHook env s).1).1 = (commonExitHook env s).1 ∧
    (commonExitHook env s).2.prom + (commonExitHook env (commonExitHook env s).1).2.prom ≤ 1 ∧
    (commonExitHook env s).2.loki + (commonExitHook env (commonExitHook env s).1).2.loki ≤ 1 ∧
    (commonExitHook env s).2.graf + (commonExitHook env (commonExitHook env s).1).2.graf ≤ 1 := by
  have hq := secondPassQuiet env s h
  have hle := commonExitHook_calls_le env s
  rw [hq]
  exact ⟨rfl, rfl, by simpa [noCalls] using hle.1, by simpa [noCalls] using hle.2.1,
    by simpa [noCalls] using hle.2.2⟩

/-- Claim C1 witness: the amended idempotence at a concrete leader input. -/
theorem c1_idempotent_convergence_witness :
    (commonExitHook envLeader (commonExitHook envLeader sMarkerAbc).1).2 = noCalls ∧
    (commonExitHook envLeader (commonExitHook envLeader sMarkerAbc).1).1
      = (commonExitHook envLeader sMarkerAbc).1 ∧
    (commonExitHook envLeader sMarkerAbc).2.prom
      + (commonExitHook envLeader (commonExitHook envLeader sMarkerAbc).1).2.prom ≤ 1 ∧
    (commonExitHook envLeader sMarkerAbc).2.loki
      + (commonExitHook envLeader (commonExitHook envLeader sMarkerAbc).1).2.loki ≤ 1 ∧
    (commonExitHook envLeader sMarkerAbc).2.graf
      + (commonExitHook envLeader (commonExitHook envLeader sMarkerAbc).1).2.graf ≤ 1 :=
  c1_idempotent_convergence envLeader sMarkerAbc (Or.inl rfl)

/-- Helper for claim C2: any sequence of passes run entirely as non-leader
preserves the peer app data. -/
theorem passSeq_nonleader_appData (envs : List Env) (s : CharmState)
    (h : ∀ e ∈ envs, e.isLeader = false) :
    (passSeq envs s).appData = s.appData := by
  induction envs generalizing s with
  | nil => rfl
  | cons e rest ih =>
    have he : e.isLeader = false := h e (by simp)
    have hrest : ∀ x ∈ rest, x.isLeader = false := fun x hx => h x (by simp [hx])
    calc (passSeq (e :: rest) s).appData
        = (passSeq rest (commonExitHook e s).1).appData := rfl
      _ = (commonExitHook e s).1.appData := ih _ hrest
      _ = s.appData := commonExitHook_nonleader_appData e s he

/-- Claim C2: a unit that is not the leader never writes the replicated peer
application data: the `_stored_set` guard makes every write a silent no-op
(never raising), so any sequence of reconciliation passes executed as
non-leader leaves the app data — the stored fingerprint and every other key —
exactly as it was. -/
theorem c2_leader_only_mutation (envs : List Env) (s : CharmState)
    (h : ∀ e ∈ envs, e.isLeader = false) :
    (passSeq envs s).appData = s.appData ∧
    (∀ (e : Env) (d : AppData) (k v : String), e.isLeader = false → storedSet e d k v = d) := by
  refine ⟨passSeq_nonleader_appData envs s h, ?_⟩
  intro e d k v he
  simp [storedSet, he]

/-- Claim C2 witness: a concrete two-pass non-leader sequence. -/
theorem c2_leader_only_mutation_witness :
    (passSeq [envFollower, envFollower] sMarkerAbc).appData = sMarkerAbc.appData ∧
    (∀ (e : Env) (d : AppData) (k v : String), e.isLeader = false → storedSet e d k v = d) :=
  c2_leader_only_mutation [envFollower, envFollower] sMarkerAbc (by decide)

/-- Claim C3: a failing sync command leaves the pass state untouched — the
marker file and working directory are kept, the peer relation data is not
written, no collaborator is republished — and the only effect is the unit
status becoming blocked with a message starting with "Sync failed: ". -/
theorem c3_sync_failure_preserves_state (env : Env) (s : CharmState) (m : String)
    (d : Option String) (hcc : ¬ env.canConnect = false)
    (hpp : ¬ env.peerRelationExists = false) (hcfg : configured env.config)
    (hso : env.syncOutcome = SyncOutcome.err m d) :
    commonExitHook env s =
      (⟨s.markerFile, s.appData,
        Status.blocked ("Sync failed: " ++ ("Sync error: " ++ m))⟩, noCalls) :=
  commonExitHook_err_eq env s m d hcc hpp hcfg hso

/-- Claim C3 witness: a concrete failing sync. -/
theorem c3_sync_failure_preserves_state_witness :
    commonExitHook envSyncFail sEmpty =
      (⟨sEmpty.markerFile, sEmpty.appData,
        Status.blocked ("Sync failed: " ++ ("Sync error: " ++ "boom"))⟩, noCalls) :=
  c3_sync_failure_preserves_state envSyncFail sEmpty ("boom") none (by decide) (by decide)
    (by decide) rfl

/-- Claim C4 counterexample: when the one-shot sync of the sync-now action
fails, the action fails and returns immediately: the charm state is left
untouched and is not the state a re-run reconciliation pass would produce, so
the full pass is not re-run on the failure path. -/
theorem c4_counterexample :
    (onSyncNowAction envSyncFail sEmpty).1 = sEmpty ∧
    (onSyncNowAction envSyncFail sEmpty).1 ≠ (commonExitHook envSyncFail sEmpty).1 ∧
    (onSyncNowAction envSyncFail sEmpty).2.2.failMsg = some ("Sync error: boom") := by
  decide

/-- Claim C4 (amended): after its guards pass, the sync-now action re-runs
the full reconciliation pass exactly when the one-shot sync succeeds — the
resulting state and republish calls are those of the common exit hook and
stdout is surfaced in the results — while on a sync failure it surfaces the
failure message and returns with the state untouched and no republish. -/
theorem c4_sync_now_reconverges_on_success (env : Env) (s : CharmState)
    (hcc : ¬ env.canConnect = false) (hcfg : configured env.config) :
    (∀ o e, env.syncOutcome = SyncOutcome.ok o e →
      (onSyncNowAction env s).1 = (commonExitHook env s).1 ∧
      (onSyncNowAction env s).2.1 = (commonExitHook env s).2 ∧
      (onSyncNowAction env s).2.2.results = some o ∧
      (onSyncNowAction env s).2.2.failMsg = none) ∧
    (∀ m d, env.syncOutcome = SyncOutcome.err m d →
      (onSyncNowAction env s).1 = s ∧ (onSyncNowAction env s).2.1 = noCalls ∧
      (onSyncNowAction env s).2.2.failMsg = some (syncErrorMessage m)) := by
  constructor
  · intro o e hso
    unfold onSyncNowAction
    rw [if_neg hcc, if_neg (not_not_intro hcfg), hso]
    exact ⟨rfl, rfl, rfl, rfl⟩
  · intro m d hso
    unfold onSyncNowAction
    rw [if_neg hcc, if_neg (not_not_intro hcfg), hso]
    exact ⟨rfl, rfl, rfl⟩

/-- Claim C4 witness: the success path at a concrete input. -/
theorem c4_sync_now_reconverges_on_success_witness :
    (onSyncNowAction envLeader sEmpty).1 = (commonExitHook envLeader sEmpty).1 ∧
    (onSyncNowAction envLeader sEmpty).2.1 = (commonExitHook envLeader sEmpty).2 ∧
    (onSyncNowAction envLeader sEmpty).2.2.results = some "" ∧
    (onSyncNowAction envLeader sEmpty).2.2.failMsg = none :=
  (c4_sync_now_reconverges_on_success envLeader sEmpty (by decide) (by decide)).1 "" "" rfl

/-- Claim C5 counterexample: with the container reachable, the peer relation
present, the repo configured, the replicated fingerprint uninitialized and
the unit not the leader, the pass does not stop in a waiting state: it
proceeds to republish the grafana dashboards and resolves to the blocked
no-hash status. -/
theorem c5_counterexample :
    envFollower.isLeader = false ∧
    storedGet envFollower sEmpty.appData hashKey = none ∧
    (commonExitHook envFollower sEmpty).2.graf = 1 ∧
    (commonExitHook envFollower sEmpty).1.unitStatus
      = Status.blocked ("No hash file yet - confirm config is valid") := by
  decide

/-- Claim C5 (amended): there is no waiting-for-leader-initialization
short-circuit in the pass. With the container reachable, the peer relation
present, the repo configured, the replicated fingerprint never initialized
and the unit not the leader, a pass whose sync succeeds still proceeds: it
writes no relation data and keeps the marker, makes no prometheus or loki
republish call, and resolves to blocked on the missing hash. -/
theorem c5_no_leader_init_short_circuit (env : Env) (s : CharmState) (o e : String)
    (hcc : ¬ env.canConnect = false) (hpp : ¬ env.peerRelationExists = false)
    (hcfg : configured env.config) (hl : env.isLeader = false)
    (hh : storedGet env s.appData hashKey = none)
    (hso : env.syncOutcome = SyncOutcome.ok o e) :
    (commonExitHook env s).1.appData = s.appData ∧
    (commonExitHook env s).1.markerFile = s.markerFile ∧
    (commonExitHook env s).2.prom = 0 ∧
    (commonExitHook env s).2.loki = 0 ∧
    (commonExitHook env s).1.unitStatus
      = Status.blocked ("No hash file yet - confirm config is valid") := by
  rw [commonExitHook_ok_eq env s o e hcc hpp hcfg hso]
  dsimp only
  have hnl := updateHash_nonleader env s hl
  have hfix := updateHash_fixed env s
  refine ⟨hnl.1, hfix.1, hnl.2.1, hnl.2.2, ?_⟩
  rw [hnl.1, hh]
  simp

/-- Claim C5 witness: the amended behavior at a concrete follower input. -/
theorem c5_no_leader_init_short_circuit_witness :
    (commonExitHook envFollower sEmpty).1.appData = sEmpty.appData ∧
    (commonExitHook envFollower sEmpty).1.markerFile = sEmpty.markerFile ∧
    (commonExitHook envFollower sEmpty).2.prom = 0 ∧
    (commonExitHook envFollower sEmpty).2.loki = 0 ∧
    (commonExitHook envFollower sEmpty).1.unitStatus
      = Status.blocked ("No hash file yet - confirm config is valid") :=
  c5_no_leader_init_short_circuit envFollower sEmpty "" "" (by decide) (by decide) (by decide)
    rfl (by decide) rfl

/-- Claim C6: fingerprint extraction is total and shaped. When the stripped
marker text decomposes at its last slash into a non-empty prefix and a
non-empty suffix (the reference-to-worktree shape, newline-free as matched by
the regex), the reader returns that suffix; when the stripped text has no
slash at all, or the file is missing or unreadable, or the container is
unreachable, it returns the placeholder "failed to fetch hash" — and being a
total function it never raises. -/
theorem c6_fingerprint_extraction :
    (∀ (raw p q : List Char), pyStrip raw = p ++ '/' :: q → p ≠ [] → q ≠ [] →
      '/' ∉ q → '\n' ∉ p ++ '/' :: q →
      getCurrentHash true (some raw) = String.mk q) ∧
    (∀ raw : List Char, '/' ∉ pyStrip raw →
      getCurrentHash true (some raw) = hashPlaceholder) ∧
    getCurrentHash true none = hashPlaceholder ∧
    (∀ markerFile : Option (List Char), getCurrentHash false markerFile = hashPlaceholder) := by
  refine ⟨?_, ?_, rfl, fun _ => rfl⟩
  · intro raw p q hs hp hq hq2 hnl
    unfold getCurrentHash
    rw [if_neg (by simp)]
    dsimp only
    rw [hs, reMatchGroup_extract p q hp hq hq2 hnl]
  · intro raw h
    unfold getCurrentHash
    rw [if_neg (by simp)]
    dsimp only
    rw [reMatchGroup_noslash (pyStrip raw) h]

/-- Claim C6 witness: extraction on a worktree reference and on slash-free
text. -/
theorem c6_fingerprint_extraction_witness :
    getCurrentHash true (some ("gitdir: ../.git/worktrees/abc123".data))
      = String.mk ("abc123".data) ∧
    getCurrentHash true (some ("no slash here".data)) = hashPlaceholder :=
  ⟨c6_fingerprint_extraction.1 ("gitdir: ../.git/worktrees/abc123".data)
      ("gitdir: ../.git/worktrees".data) ("abc123".data) (by decide) (by decide) (by decide)
      (by decide) (by decide),
    c6_fingerprint_extraction.2.1 ("no slash here".data) (by decide)⟩

/-- Claim C7: on the leader, starting from a state with mirrored content
present and a real (non-placeholder) stored fingerprint, a pass with the repo
URL unset wipes the working directory, republishes all three collaborators
exactly once, commits the placeholder fingerprint, sets the config-missing
blocked status, and repeating the pass performs no further republish call. -/
theorem c7_unset_repo_safety (env : Env) (s : CharmState) (m : List Char) (v : String)
    (hcc : ¬ env.canConnect = false) (hpp : ¬ env.peerRelationExists = false)
    (hl : env.isLeader = true) (hcfg : ¬ configured env.config)
    (hm : s.markerFile = some m)
    (hv : storedGet env s.appData hashKey = some v) (hvr : v ≠ hashPlaceholder) :
    (commonExitHook env s).2 = ⟨1, 1, 1⟩ ∧
    (commonExitHook env s).1.markerFile = none ∧
    storedGet env (commonExitHook env s).1.appData hashKey = some hashPlaceholder ∧
    (commonExitHook env s).1.unitStatus
      = Status.blocked ("Config options missing - use `juju config`") ∧
    (commonExitHook env (commonExitHook env s).1).2 = noCalls := by
  have hp : env.peerRelationExists = true := by
    revert hpp
    cases env.peerRelationExists <;> simp
  have hc : env.canConnect = true := by
    revert hcc
    cases env.canConnect <;> simp
  have hcur : getCurrentHash env.canConnect (none : Option (List Char)) = hashPlaceholder := by
    rw [hc]
    rfl
  have hcond : storedGet env s.appData hashKey
      ≠ some (getCurrentHash env.canConnect (none : Option (List Char))) := by
    rw [hcur, hv]
    intro hx
    exact hvr (Option.some.inj hx)
  have hbranch : updateHashAndRelData env
      (⟨none, s.appData, Status.blocked ("Config options missing - use `juju config`")⟩
        : CharmState)
      = (⟨none,
          storedSet env (storedSet env s.appData reinitKey ("Done")) hashKey
            (getCurrentHash env.canConnect (none : Option (List Char))),
          Status.blocked ("Config options missing - use `juju config`")⟩, ⟨1, 1, 1⟩) := by
    unfold updateHashAndRelData
    dsimp only
    rw [if_pos ⟨hcond, hl⟩]
  refine ⟨?_, ?_, ?_, ?_, ?_⟩
  · rw [commonExitHook_noconfig_eq env s hcc hpp hcfg, hbranch]
  · rw [commonExitHook_noconfig_eq env s hcc hpp hcfg, hbranch]
  · rw [commonExitHook_noconfig_eq env s hcc hpp hcfg, hbranch]
    dsimp only
    simp [storedGet, storedSet, hl, hp]
    rw [storedLookup_set_same, hcur]
  · rw [commonExitHook_noconfig_eq env s hcc hpp hcfg, hbranch]
  · rw [secondPassQuiet env s (Or.inl hl)]

/-- Claim C7 witness: the unset-repo pass at a concrete leader state. -/
theorem c7_unset_repo_safety_witness :
    (commonExitHook envUnsetRepo sReal).2 = ⟨1, 1, 1⟩ ∧
    (commonExitHook envUnsetRepo sReal).1.markerFile = none ∧
    storedGet envUnsetRepo (commonExitHook envUnsetRepo sReal).1.appData hashKey
      = some hashPlaceholder ∧
    (commonExitHook envUnsetRepo sReal).1.unitStatus
      = Status.blocked ("Config options missing - use `juju config`") ∧
    (commonExitHook envUnsetRepo (commonExitHook envUnsetRepo sReal).1).2 = noCalls :=
  c7_unset_repo_safety envUnsetRepo sReal ("gitdir: a/abc".data) ("abc") (by decide)
    (by decide) rfl (by decide) rfl (by decide) (by decide)

/-- Claim C8 (evaluation at the failing input): the command-line builder in
the charm module consults only the cleartext `git_ssh_key` option, so with an
empty cleartext key and a secret reference resolving to a non-empty key the
emitted command line contains neither SSH switch, while a non-empty cleartext
key does produce both switches. -/
def c8Lookup : String → SecretLookup := fun _ => SecretLookup.found [("key", "PRIVKEY")]

/-- Config with the SSH key supplied only through the secret reference. -/
def c8Secret : Config := ⟨"http://example/repo.git", "", "", 0, "", "secret://sid/key"⟩

/-- Config with the SSH key supplied as cleartext. -/
def c8Clear : Config := ⟨"http://example/repo.git", "", "", 0, "PRIVKEY", ""⟩

/-- Claim C8: evaluation of the embedded builder at the failing input — the
resolved key (secret-derived) is non-empty, yet the SSH switches are absent;
they appear only for the cleartext option. -/
theorem c8_ssh_switch_missing_for_secret_key :
    resolvedSshKey c8Lookup c8Secret = "PRIVKEY" ∧
    "--ssh" ∉ gitSyncCommandLine c8Secret "/git" ∧
    "--ssh-key-file" ∉ gitSyncCommandLine c8Secret "/git" ∧
    "--ssh" ∈ gitSyncCommandLine c8Clear "/git" ∧
    "--ssh-key-file" ∈ gitSyncCommandLine c8Clear "/git" := by
  decide

/-- Evaluation of the store getter at a well-formed reference, as a function
of the lookup outcome. -/
theorem secretStoreGetValue_eval (lookup : String → SecretLookup) :
    secretStoreGetValue lookup ("secret://id/key") =
      match lookup ("id") with
      | SecretLookup.notFound => (none, some (Status.blocked secretNotFoundMsg))
      | SecretLookup.permissionError =>
        (none, some (Status.blocked
          ("missing charm permissions for the git SSH key secret. \x27juju grant-secret\x27 may resolve.")))
      | SecretLookup.otherError =>
        (none, some (Status.blocked ("Unexpected error fetching secret, see debug-log.")))
      | SecretLookup.found content =>
        match storedLookup content ("key") with
        | none => (none, some (Status.blocked secretNotFoundMsg))
        | some v =>
          if v = "" then (none, some (Status.blocked secretNotFoundMsg)) else (some v, none) := by
  rfl

/-- Evaluation of the helper getter at a well-formed reference. -/
theorem secretsHelperGetValue_eval (lookup : String → SecretLookup) :
    secretsHelperGetValue lookup ("secret://id/key") =
      match lookup ("id") with
      | SecretLookup.notFound => (none, some (Status.blocked secretNotFoundMsg))
      | SecretLookup.permissionError =>
        (none, some (Status.blocked ("missing charm permissions for the secret, see debug-log.")))
      | SecretLookup.otherError =>
        (none, some (Status.blocked ("Unexpected error fetching secret, see debug-log.")))
      | SecretLookup.found content =>
        match storedLookup content ("key") with
        | none => (none, some (Status.blocked secretNotFoundMsg))
        | some v =>
          if v = "" then (none, some (Status.blocked secretNotFoundMsg))
          else (some v, some Status.active) := by
  rfl

/-- Claim C9 counterexample: the reference-not-found and key-absent lookup
failures produce the same user-facing message — the shared not-found message —
in both getter variants, so the three failure causes do not each map to a
distinct message. -/
theorem c9_counterexample :
    (secretStoreGetValue (fun _ => SecretLookup.notFound) ("secret://id/key")).2
      = (secretStoreGetValue (fun _ => SecretLookup.found [("other", "VAL")])
          ("secret://id/key")).2 ∧
    (secretsHelperGetValue (fun _ => SecretLookup.notFound) ("secret://id/key")).2
      = (secretsHelperGetValue (fun _ => SecretLookup.found [("other", "VAL")])
          ("secret://id/key")).2 ∧
    (secretStoreGetValue (fun _ => SecretLookup.notFound) ("secret://id/key")).2
      = some (Status.blocked secretNotFoundMsg) := by
  decide

/-- Claim C9 (amended): the resolver is total (never raises) and returns a
not-found failure on every malformed reference shape — wrong scheme, missing
segment, extra segments including a model-name prefix; among the three lookup
failure causes the permission failure carries its own distinct message, while
reference-not-found and key-absent share the same "git SSH key secret not
found." message. -/
theorem c9_secret_failure_taxonomy :
    (∀ (lookup : String → SecretLookup) (url : String), url ≠ "" →
      (¬ ((urlsplitModel url).scheme = "secret" ∧ (urlsplitModel url).netloc ≠ "" ∧
            (urlsplitModel url).path ≠ "") ∨
        (pySplitChar ('/') ((urlsplitModel url).path.data.dropWhile (fun c => c == '/'))).length
          ≠ 1) →
      secretStoreGetValue lookup url = (none, some (Status.blocked secretNotFoundMsg)) ∧
      secretsHelperGetValue lookup url = (none, some (Status.blocked secretNotFoundMsg))) ∧
    (∀ lookup : String → SecretLookup, lookup ("id") = SecretLookup.notFound →
      (secretStoreGetValue lookup ("secret://id/key")).2
        = some (Status.blocked secretNotFoundMsg) ∧
      (secretsHelperGetValue lookup ("secret://id/key")).2
        = some (Status.blocked secretNotFoundMsg)) ∧
    (∀ (lookup : String → SecretLookup) (content : List (String × String)),
      lookup ("id") = SecretLookup.found content → storedLookup content ("key") = none →
      (secretStoreGetValue lookup ("secret://id/key")).2
        = some (Status.blocked secretNotFoundMsg) ∧
      (secretsHelperGetValue lookup ("secret://id/key")).2
        = some (Status.blocked secretNotFoundMsg)) ∧
    (∀ lookup : String → SecretLookup, lookup ("id") = SecretLookup.permissionError →
      (secretStoreGetValue lookup ("secret://id/key")).2
        = some (Status.blocked
            ("missing charm permissions for the git SSH key secret. \x27juju grant-secret\x27 may resolve.")) ∧
      (secretsHelperGetValue lookup ("secret://id/key")).2
        = some (Status.blocked ("missing charm permissions for the secret, see debug-log."))) := by
  refine ⟨?_, ?_, ?_, ?_⟩
  · intro lookup url hu hm
    cases hm with
    | inl h1 =>
      constructor
      · unfold secretStoreGetValue
        dsimp only
        rw [if_neg hu, if_pos h1]
      · unfold secretsHelperGetValue
        dsimp only
        rw [if_neg hu, if_pos h1]
    | inr h2 =>
      by_cases h1 : (urlsplitModel url).scheme = "secret" ∧ (urlsplitModel url).netloc ≠ "" ∧
          (urlsplitModel url).path ≠ ""
      · constructor
        · unfold secretStoreGetValue
          dsimp only
          rw [if_neg hu, if_neg (not_not_intro h1), if_pos h2]
        · unfold secretsHelperGetValue
          dsimp only
          rw [if_neg hu, if_neg (not_not_intro h1), if_pos h2]
      · constructor
        · unfold secretStoreGetValue
          dsimp only
          rw [if_neg hu, if_pos h1]
        · unfold secretsHelperGetValue
          dsimp only
          rw [if_neg hu, if_pos h1]
  · intro lookup hl
    rw [secretStoreGetValue_eval lookup, secretsHelperGetValue_eval lookup, hl]
    exact ⟨rfl, rfl⟩
  · intro lookup content hl hk
    rw [secretStoreGetValue_eval lookup, secretsHelperGetValue_eval lookup, hl]
    dsimp only
    rw [hk]
    exact ⟨rfl, rfl⟩
  · intro lookup hl
    rw [secretStoreGetValue_eval lookup, secretsHelperGetValue_eval lookup, hl]
    exact ⟨rfl, rfl⟩

/-- Claim C9 witness: malformed shapes at concrete inputs — wrong scheme and
a model-name prefix. -/
theorem c9_secret_failure_taxonomy_witness :
    (secretStoreGetValue (fun _ => SecretLookup.notFound) ("secret:noid")
      = (none, some (Status.blocked secretNotFoundMsg)) ∧
     secretsHelperGetValue (fun _ => SecretLookup.notFound) ("secret:noid")
      = (none, some (Status.blocked secretNotFoundMsg))) ∧
    (secretStoreGetValue (fun _ => SecretLookup.notFound) ("secret://model/id/key")
      = (none, some (Status.blocked secretNotFoundMsg)) ∧
     secretsHelperGetValue (fun _ => SecretLookup.notFound) ("secret://model/id/key")
      = (none, some (Status.blocked secretNotFoundMsg))) :=
  ⟨c9_secret_failure_taxonomy.1 (fun _ => SecretLookup.notFound) ("secret:noid") (by decide)
      (Or.inl (by decide)),
    c9_secret_failure_taxonomy.1 (fun _ => SecretLookup.notFound) ("secret://model/id/key")
      (by decide) (Or.inr (by decide))⟩

/-- Claim C10: in a pass reaching the hash-and-relation-data update without
taking the changed-on-leader branch, an absent reinitialization flag causes a
republish of only the grafana dashboards together with an attempt to set the
flag; a non-leader's attempt changes nothing (so the republish recurs on each
such pass), a leader's pass leaves the flag set, and once the flag is set an
unchanged fingerprint leads to no collaborator call at all. -/
theorem c10_one_time_dashboard_reinit (env : Env) (s : CharmState) :
    (¬ (storedGet env s.appData hashKey
          ≠ some (getCurrentHash env.canConnect s.markerFile) ∧ env.isLeader = true) →
      optStrFalsy (storedGet env s.appData reinitKey) = true →
      updateHashAndRelData env s
        = ({ s with appData := storedSet env s.appData reinitKey ("Done") }, ⟨0, 0, 1⟩)) ∧
    (env.isLeader = false → (updateHashAndRelData env s).1.appData = s.appData) ∧
    (env.isLeader = true → env.peerRelationExists = true →
      optStrFalsy (storedGet env (updateHashAndRelData env s).1.appData reinitKey) = false) ∧
    (optStrFalsy (storedGet env s.appData reinitKey) = false →
      storedGet env s.appData hashKey = some (getCurrentHash env.canConnect s.markerFile) →
      updateHashAndRelData env s = (s, noCalls)) := by
  refine ⟨?_, ?_, ?_, ?_⟩
  · intro hno hflag
    unfold updateHashAndRelData
    dsimp only
    rw [if_neg hno, if_pos hflag]
  · intro hl
    exact (updateHash_nonleader env s hl).1
  · intro hl hp
    exact (updateHash_leader_post env s hl hp).2
  · intro hf hh
    exact updateHash_stable env s hh hf

/-- Claim C10 witness: the grafana-only branch at a concrete follower state
with an absent flag. -/
theorem c10_one_time_dashboard_reinit_witness :
    updateHashAndRelData envFollower sEmpty
      = ({ sEmpty with appData := storedSet envFollower sEmpty.appData reinitKey ("Done") },
          ⟨0, 0, 1⟩) :=
  (c10_one_time_dashboard_reinit envFollower sEmpty).1 (by decide) (by decide)
